import Mathlib

/-!
# Verification of the FastAPI application fragment (`src/fastapi/applications.py`)

Shallow embedding of the `FastAPI` application class: the route data model,
`add_route`, and `include_router`.  Python objects are modelled as Lean
structures; the in-place mutation of the source router's route objects by
`include_router` is modelled by explicit state passing (the operation returns
both the updated application and the updated router).  Handler callables are
opaque and modelled by a `Nat` reference id.  Python's `None` becomes `Option`,
and the truthiness test `if tags:` (false for both `None` and `[]`) is modelled
by testing emptiness of the list obtained by reading `None` as `[]`.

`APIRoute` and `APIRouter` come from `fastapi.routing`, which is not part of
the given sources; their record layout is modelled from the spec's data model
(§3): a route carries a path, an opaque handler reference, a method list, an
optional name, a schema-visibility flag, and tags.  Python's `set` has an
unspecified iteration order, so `list(set(xs))` is modelled by `List.dedup`
and facts about tags are proved at the level of finite sets.
-/

/-- Modelled from the spec: the `APIRoute` record of `fastapi.routing`
(absent from the sources).  Fields are exactly the constructor arguments that
`applications.py` passes plus the `tags` field it reads and writes; the
constructor stores each argument verbatim (§3 data model: path, handler
reference, methods, optional name, visibility flag, tags). -/
structure APIRoute where
  path : String
  endpoint : Nat
  methods : List String
  name : Option String
  include_in_schema : Bool
  tags : List String
deriving Repr, DecidableEq

/-- An entry of a router's route table.  The table is polymorphic: besides
concrete `APIRoute` records it may hold entries of other runtime variants
(mounted sub-applications, static mounts, ...), modelled opaquely. -/
inductive RouteEntry where
  | apiRoute (r : APIRoute)
  | other (tag : Nat)
deriving Repr, DecidableEq

/-- Modelled from the spec: the `APIRouter` of `fastapi.routing` (absent from
the sources) as used by `applications.py`: an object exposing a route table
that is an ordered, possibly polymorphic sequence of entries. -/
structure APIRouter where
  routes : List RouteEntry
deriving Repr, DecidableEq

/-- The `FastAPI` application object: the fields assigned by `__init__`.
`openapi_tags` and `extra` hold opaque configuration data, modelled as
association-list material. -/
structure FastAPI where
  debug : Bool
  title : String
  description : String
  version : String
  openapi_url : Option String
  openapi_tags : List (List (String × String))
  docs_url : Option String
  redoc_url : Option String
  routes : List APIRoute
  extra : List (String × String)
deriving Repr, DecidableEq

/-- Python's `methods or ["GET"]` from `add_route`: both `None` and the empty
list are falsy, so either yields `["GET"]`. -/
def methodsOrDefault (methods : Option (List String)) : List String :=
  match methods with
  | none => ["GET"]
  | some ms => if ms.isEmpty then ["GET"] else ms

/-- `FastAPI.add_route(path, endpoint, *, methods=None, name=None,
include_in_schema=True)`: builds an `APIRoute` from the arguments (the route's
tags start empty, no `tags` argument being passed to the constructor) and
appends it to `self.routes`.  Python's defaults correspond to the arguments
`none`, `none`, `true`. -/
def add_route (app : FastAPI) (path : String) (endpoint : Nat)
    (methods : Option (List String)) (name : Option String)
    (include_in_schema : Bool) : FastAPI :=
  let route : APIRoute :=
    { path := path
      endpoint := endpoint
      methods := methodsOrDefault methods
      name := name
      include_in_schema := include_in_schema
      tags := [] }
  { app with routes := app.routes ++ [route] }

/-- The body of `include_router`'s loop on one `APIRoute`:
`route.path = prefix + route.path`, then, when `tags` is truthy,
`route.tags = list(set(route.tags + tags))` (dedup of the concatenation;
Python's resulting order is unspecified, so only set-level facts about the
tags are claimed downstream). -/
def transformRoute (pre : String) (tgs : List String) (r : APIRoute) : APIRoute :=
  let r1 : APIRoute := { r with path := pre ++ r.path }
  if tgs.isEmpty then r1 else { r1 with tags := (r1.tags ++ tgs).dedup }

/-- The loop of `include_router`: walks the router's table carrying the
application's route list (`acc` plays `self.routes`, receiving an append for
each concrete route) and rebuilds the router's table with each `APIRoute`
entry mutated in place; entries of any other variant fail the `isinstance`
test and are left untouched and unappended. -/
def includeRouterLoop (pre : String) (tgs : List String) :
    List APIRoute → List RouteEntry → List APIRoute × List RouteEntry
  | acc, [] => (acc, [])
  | acc, RouteEntry.apiRoute r :: rest =>
    let r1 := transformRoute pre tgs r
    let p := includeRouterLoop pre tgs (acc ++ [r1]) rest
    (p.1, RouteEntry.apiRoute r1 :: p.2)
  | acc, RouteEntry.other t :: rest =>
    let p := includeRouterLoop pre tgs acc rest
    (p.1, RouteEntry.other t :: p.2)

/-- `FastAPI.include_router(router, *, prefix="", tags=None, ...)`.  The
`tags=None` default is modelled as the empty list (both are falsy under
`if tags:`).  The route objects of `router` are mutated in place, so the
operation yields both the updated application and the updated router. -/
def include_router (app : FastAPI) (router : APIRouter) (pre : String)
    (tgs : List String) : FastAPI × APIRouter :=
  let p := includeRouterLoop pre tgs app.routes router.routes
  ({ app with routes := p.1 }, { router with routes := p.2 })

/-- The concrete-route entries of a router's table, in table order. -/
def routerAPIRoutes (router : APIRouter) : List APIRoute :=
  router.routes.filterMap fun e =>
    match e with
    | RouteEntry.apiRoute r => some r
    | RouteEntry.other _ => none

/-- What one pass of `include_router` does to a table entry of the source
router: concrete routes are rewritten in place, other variants are left as
they are. -/
def mutateEntry (pre : String) (tgs : List String) : RouteEntry → RouteEntry
  | RouteEntry.apiRoute r => RouteEntry.apiRoute (transformRoute pre tgs r)
  | RouteEntry.other t => RouteEntry.other t

-- ### Structural lemmas about the loop

theorem includeRouterLoop_fst (pre : String) (tgs : List String)
    (acc : List APIRoute) (l : List RouteEntry) :
    (includeRouterLoop pre tgs acc l).1 =
      acc ++ ((APIRouter.mk l |> routerAPIRoutes).map (transformRoute pre tgs)) := by
  induction l generalizing acc with
  | nil => simp [includeRouterLoop, routerAPIRoutes]
  | cons e rest ih =>
    cases e with
    | apiRoute r =>
      simp [includeRouterLoop, routerAPIRoutes, List.filterMap_cons, ih]
    | other t =>
      simp [includeRouterLoop, routerAPIRoutes, List.filterMap_cons, ih]

theorem includeRouterLoop_snd (pre : String) (tgs : List String)
    (acc : List APIRoute) (l : List RouteEntry) :
    (includeRouterLoop pre tgs acc l).2 = l.map (mutateEntry pre tgs) := by
  induction l generalizing acc with
  | nil => simp [includeRouterLoop]
  | cons e rest ih =>
    cases e with
    | apiRoute r => simp [includeRouterLoop, mutateEntry, ih]
    | other t => simp [includeRouterLoop, mutateEntry, ih]

theorem include_router_routes (app : FastAPI) (router : APIRouter)
    (pre : String) (tgs : List String) :
    (include_router app router pre tgs).1.routes =
      app.routes ++ (routerAPIRoutes router).map (transformRoute pre tgs) := by
  simpa [include_router, routerAPIRoutes] using
    includeRouterLoop_fst pre tgs app.routes router.routes

theorem include_router_router (app : FastAPI) (router : APIRouter)
    (pre : String) (tgs : List String) :
    (include_router app router pre tgs).2.routes =
      router.routes.map (mutateEntry pre tgs) := by
  simpa [include_router] using
    includeRouterLoop_snd pre tgs app.routes router.routes

theorem transformRoute_path (pre : String) (tgs : List String) (r : APIRoute) :
    (transformRoute pre tgs r).path = pre ++ r.path := by
  unfold transformRoute
  by_cases h : tgs.isEmpty <;> simp [h]

theorem transformRoute_tags_toFinset (pre : String) (tgs : List String)
    (r : APIRoute) :
    (transformRoute pre tgs r).tags.toFinset = r.tags.toFinset ∪ tgs.toFinset := by
  unfold transformRoute
  by_cases h : tgs.isEmpty
  · have h0 : tgs = [] := List.isEmpty_iff.mp h
    subst h0
    simp
  · simp only [h, Bool.false_eq_true, if_false]
    ext a
    simp [List.mem_dedup]

theorem transformRoute_tags_of_empty (pre : String) (r : APIRoute) :
    (transformRoute pre [] r).tags = r.tags := by
  simp [transformRoute]

theorem routerAPIRoutes_map_mutate (pre : String) (tgs : List String)
    (l : List RouteEntry) :
    routerAPIRoutes (APIRouter.mk (l.map (mutateEntry pre tgs))) =
      (routerAPIRoutes (APIRouter.mk l)).map (transformRoute pre tgs) := by
  induction l with
  | nil => simp [routerAPIRoutes]
  | cons e rest ih =>
    cases e with
    | apiRoute r => simp [routerAPIRoutes, mutateEntry, List.filterMap_cons] at ih ⊢; exact ih
    | other t => simp [routerAPIRoutes, mutateEntry, List.filterMap_cons] at ih ⊢; exact ih

-- ### Claim theorems

/-- C1: for every router R with N concrete routes and any prefix P and tag
list T, `include_router` appends exactly those N routes (transformed) to the
application's route table, after its existing routes and in R's relative
order; in particular the resulting length is the old length plus N. -/
theorem include_router_appends_all_routes_in_order (app : FastAPI)
    (router : APIRouter) (pre : String) (tgs : List String) :
    (include_router app router pre tgs).1.routes =
      app.routes ++ (routerAPIRoutes router).map (transformRoute pre tgs) ∧
    (include_router app router pre tgs).1.routes.length =
      app.routes.length + (routerAPIRoutes router).length := by
  refine ⟨include_router_routes app router pre tgs, ?_⟩
  rw [include_router_routes app router pre tgs]
  simp

/-- C2: every route imported by `include_router` with prefix P has path equal
to P concatenated with its original path, as literal string concatenation; in
particular duplicate slashes are not normalized, as the concrete instance with
prefix `"/api/"` and path `"/items"` shows. -/
theorem include_router_paths_literal_concat (app : FastAPI)
    (router : APIRouter) (pre : String) (tgs : List String) :
    ((include_router app router pre tgs).1.routes.drop app.routes.length).map
        APIRoute.path =
      (routerAPIRoutes router).map (fun r => pre ++ r.path) ∧
    (transformRoute "/api/" []
        { path := "/items", endpoint := 0, methods := ["GET"], name := none,
          include_in_schema := true, tags := [] }).path = "/api//items" := by
  constructor
  · rw [include_router_routes app router pre tgs, List.drop_left]
    simp [transformRoute_path]
  · rfl

/-- C3: every route imported by `include_router` with tag list T has, as a
finite set, tags equal to the union of its original tags and T (duplicates
collapsed); and with T empty the stored tag list itself is unchanged. -/
theorem include_router_tags_set_union (app : FastAPI) (router : APIRouter)
    (pre : String) (tgs : List String) :
    ((include_router app router pre tgs).1.routes.drop app.routes.length).map
        (fun r => r.tags.toFinset) =
      (routerAPIRoutes router).map (fun r => r.tags.toFinset ∪ tgs.toFinset) ∧
    ((include_router app router pre []).1.routes.drop app.routes.length).map
        (fun r => r.tags) =
      (routerAPIRoutes router).map (fun r => r.tags) := by
  constructor
  · rw [include_router_routes app router pre tgs, List.drop_left]
    simp [transformRoute_tags_toFinset]
  · rw [include_router_routes app router pre [], List.drop_left]
    simp [transformRoute_tags_of_empty]

/-- C4: `include_router` rewrites the source router's route objects in place
(each concrete entry of the router's table is the transformed route after the
call), so a second inclusion of the same router into another application with
prefix P2 imports routes whose paths already carry the first prefix P1:
they equal `P2 ++ (P1 ++ original_path)`. -/
theorem include_router_mutates_source_router (app1 app2 : FastAPI)
    (router : APIRouter) (pre1 pre2 : String) (tgs1 tgs2 : List String) :
    (include_router app1 router pre1 tgs1).2.routes =
      router.routes.map (mutateEntry pre1 tgs1) ∧
    ((include_router app2 (include_router app1 router pre1 tgs1).2 pre2
          tgs2).1.routes.drop app2.routes.length).map APIRoute.path =
      (routerAPIRoutes router).map (fun r => pre2 ++ (pre1 ++ r.path)) := by
  refine ⟨include_router_router app1 router pre1 tgs1, ?_⟩
  rw [include_router_routes, List.drop_left]
  have h2 : (include_router app1 router pre1 tgs1).2.routes =
      router.routes.map (mutateEntry pre1 tgs1) :=
    include_router_router app1 router pre1 tgs1
  have h3 : routerAPIRoutes (include_router app1 router pre1 tgs1).2 =
      (routerAPIRoutes router).map (transformRoute pre1 tgs1) := by
    have := routerAPIRoutes_map_mutate pre1 tgs1 router.routes
    simpa [routerAPIRoutes, h2] using this
  rw [h3]
  simp [transformRoute_path]

/-- C5: `include_router` imports only the entries of the source router's
table that are concrete `APIRoute` records: the appended segment is exactly
the transformed concrete routes, entries of the other variant are left
untransformed by the per-entry action, and a router holding only a
non-route entry appends nothing. -/
theorem include_router_skips_non_route_entries (app : FastAPI)
    (router : APIRouter) (pre : String) (tgs : List String) :
    (include_router app router pre tgs).1.routes =
      app.routes ++ (routerAPIRoutes router).map (transformRoute pre tgs) ∧
    (∀ t : Nat, mutateEntry pre tgs (RouteEntry.other t) = RouteEntry.other t) ∧
    (include_router app (APIRouter.mk [RouteEntry.other 7]) pre tgs).1.routes =
      app.routes := by
  refine ⟨include_router_routes app router pre tgs, fun t => rfl, ?_⟩
  rw [include_router_routes]
  simp [routerAPIRoutes]

/-- C6: including a router whose route table is empty is a no-op: the
application (its whole route table included) and the router are returned
unchanged, and no error is possible (`include_router` is total). -/
theorem include_router_empty_router_noop (app : FastAPI) (router : APIRouter)
    (pre : String) (tgs : List String) (h : router.routes = []) :
    include_router app router pre tgs = (app, router) := by
  obtain ⟨l⟩ := router
  simp only at h
  subst h
  simp [include_router, includeRouterLoop]

/-- Witness for C6 at a concrete application and an empty router. -/
theorem include_router_empty_router_noop_witness :
    include_router
        { debug := false, title := "FastAPI", description := "",
          version := "0.1.0", openapi_url := some "/openapi.json",
          openapi_tags := [], docs_url := some "/docs",
          redoc_url := some "/redoc",
          routes := [{ path := "/", endpoint := 3, methods := ["GET"],
                       name := none, include_in_schema := true,
                       tags := [] }],
          extra := [] }
        (APIRouter.mk []) "/api/v1" ["v1"] =
      ({ debug := false, title := "FastAPI", description := "",
          version := "0.1.0", openapi_url := some "/openapi.json",
          openapi_tags := [], docs_url := some "/docs",
          redoc_url := some "/redoc",
          routes := [{ path := "/", endpoint := 3, methods := ["GET"],
                       name := none, include_in_schema := true,
                       tags := [] }],
          extra := [] }, APIRouter.mk []) :=
  include_router_empty_router_noop _ _ _ _ rfl

/-- C7: `add_route` called with the `methods` default (`None`) and the
`include_in_schema` default (`True`) appends a route whose method list is
exactly `["GET"]` and whose schema-visibility flag is `true`. -/
theorem add_route_default_methods_and_visibility (app : FastAPI) (p : String)
    (ep : Nat) (nm : Option String) :
    (add_route app p ep none nm true).routes =
      app.routes ++ [{ path := p, endpoint := ep, methods := ["GET"],
                       name := nm, include_in_schema := true,
                       tags := [] }] := rfl

/-- C8: `add_route` called with the `name` default (`None`) appends a route
whose name is the distinguished no-value `none`, which differs from the
empty string `some ""`. -/
theorem add_route_default_name_absent (app : FastAPI) (p : String) (ep : Nat)
    (ms : Option (List String)) (vis : Bool) :
    ∃ r : APIRoute, (add_route app p ep ms none vis).routes = app.routes ++ [r] ∧
      r.name = none ∧ r.name ≠ some "" :=
  ⟨_, rfl, rfl, by simp⟩

/-- C9: every route appended by `add_route` has a non-empty method list: the
stored list is `methods or ["GET"]`, which is `["GET"]` when `methods` is
omitted (`None`) or explicitly empty, and never empty. -/
theorem add_route_methods_nonempty (app : FastAPI) (p : String) (ep : Nat)
    (ms : Option (List String)) (nm : Option String) (vis : Bool) :
    (add_route app p ep ms nm vis).routes =
      app.routes ++ [{ path := p, endpoint := ep,
                       methods := methodsOrDefault ms, name := nm,
                       include_in_schema := vis, tags := [] }] ∧
    methodsOrDefault ms ≠ [] ∧
    methodsOrDefault none = ["GET"] ∧ methodsOrDefault (some []) = ["GET"] := by
  refine ⟨rfl, ?_, rfl, rfl⟩
  cases ms with
  | none => simp [methodsOrDefault]
  | some l => cases l <;> simp [methodsOrDefault]

/-- C10: `include_router` changes nothing about the application except its
route table: every metadata field (debug flag, title, description, version,
documentation URLs, OpenAPI tags, extra options) is unchanged, and the routes
present before the call are unchanged in value and position, the imported
routes being appended after them. -/
theorem include_router_frame_condition (app : FastAPI) (router : APIRouter)
    (pre : String) (tgs : List String) :
    (include_router app router pre tgs).1.debug = app.debug ∧
    (include_router app router pre tgs).1.title = app.title ∧
    (include_router app router pre tgs).1.description = app.description ∧
    (include_router app router pre tgs).1.version = app.version ∧
    (include_router app router pre tgs).1.openapi_url = app.openapi_url ∧
    (include_router app router pre tgs).1.openapi_tags = app.openapi_tags ∧
    (include_router app router pre tgs).1.docs_url = app.docs_url ∧
    (include_router app router pre tgs).1.redoc_url = app.redoc_url ∧
    (include_router app router pre tgs).1.extra = app.extra ∧
    (include_router app router pre tgs).1.routes.take app.routes.length =
      app.routes := by
  refine ⟨rfl, rfl, rfl, rfl, rfl, rfl, rfl, rfl, rfl, ?_⟩
  rw [include_router_routes]
  exact List.take_left _ _
